import Mathlib

/-!
Verification development for the ockam repository excerpt.

Two components are embedded:

1. `Nodes` — the CBOR node-management server of
   `ockam_api/src/nodes.rs` (`Server::on_request`).  The server keeps a
   `HashMap<String, NodeInfo>` and answers `GET /`, `GET /id`,
   `POST /` (create) and `DELETE /id` requests.  The `Request`,
   `Response`, `Status`, `Method`, `CreateNode` and `NodeInfo` types
   and the CBOR codec live outside the excerpt, so they are modelled
   from the spec; `on_request` itself is translated line by line from
   the source.  CBOR decoding is modelled as the sequence of values the
   decoder yields (first a `Request`, then possibly a `CreateNode`),
   each of which may fail; encoding with `minicbor` into a `Vec<u8>`
   has error type `Infallible` and therefore never fails, which the
   model reflects by making response construction total.

2. `Portal` — the TCP outlet listener of
   `ockam_transport_tcp/src/portal/outlet_listener.rs`
   (`TcpOutletListenWorker::handle_message`).  Spawning the
   per-session outlet worker is modelled by returning a record of the
   arguments the listener passes to `TcpPortalWorker::start_new_outlet`.
-/

namespace Nodes

/-- Modelled from the spec: the HTTP-like methods of the request header
type `Method` (the type lives in `ockam_api` outside the excerpt).  The
spec names `GET`, `POST`, `DELETE`; `put` and `patch` stand for the
decoded-but-not-allowed methods that hit the `MethodNotAllowed` arm. -/
inductive Method
  | get
  | post
  | put
  | delete
  | patch
deriving DecidableEq, Repr

/-- Modelled from the spec: response status codes.  The spec lists
`Ok | NotFound | BadRequest | MethodNotAllowed | NotImplemented` as the
codes the server returns; `internalServerError` is a further status of
the wire format that the server never produces. -/
inductive Status
  | ok
  | badRequest
  | notFound
  | methodNotAllowed
  | internalServerError
  | notImplemented
deriving DecidableEq, Repr

/-- Modelled from the spec: a decoded request header with an id, a path,
an optional method (absent when the wire method is unrecognized) and a
has-body flag. -/
structure Request where
  id : Nat
  path : String
  method : Option Method
  hasBody : Bool
deriving DecidableEq, Repr

/-- Modelled from the spec: the `CreateNode` body of a `POST /`
request, carrying the requested node name. -/
structure CreateNode where
  name : String
deriving DecidableEq, Repr

/-- Modelled from the spec: the `NodeInfo` value stored by the server
and returned in responses, carrying a generated id and a name. -/
structure NodeInfo where
  id : String
  name : String
deriving DecidableEq, Repr

/-- Modelled from the spec: the `Error` body attached to failure
responses, built as `Error::new(path).with_method(m).with_message(msg)`
in the source. -/
structure ApiError where
  path : String
  method : Option Method
  message : Option String
deriving DecidableEq, Repr

/-- Bodies a server response can carry. -/
inductive Body
  | none
  | node (n : NodeInfo)
  | nodes (ns : List NodeInfo)
  | err (e : ApiError)
deriving DecidableEq, Repr

/-- Modelled from the spec: a decoded response: the id of the request it
answers, a status, and a body. -/
structure Response where
  re : Nat
  status : Status
  body : Body
deriving DecidableEq, Repr

/-- A CBOR decode failure (`minicbor::decode::Error`). -/
inductive DecodeErr
  | err
deriving DecidableEq, Repr

/-- The server's error type `NodesError`: a decode failure or an encode
failure.  The encode error type is `minicbor::encode::Error<Infallible>`
whose payload is uninhabited, as in the source. -/
inductive NodesError
  | decode (e : DecodeErr)
  | encode (e : Empty)
deriving DecidableEq

/-- Modelled from the spec: the request bytes as seen by the server's
CBOR decoder — the sequence of values successive `dec.decode()` calls
yield: first a `Request` header, then (only consumed when the method is
`POST` and a body is present) a `CreateNode`. -/
structure Cbor where
  request : Except DecodeErr Request
  createNode : Except DecodeErr CreateNode

/-- Splits a character list on the separator `'/'`, accumulating the
current segment in reverse. -/
def splitSegsAux : List Char → List Char → List String
  | [], acc => [String.mk acc.reverse]
  | c :: rest, acc =>
    if c = '/' then String.mk acc.reverse :: splitSegsAux rest []
    else splitSegsAux rest (c :: acc)

/-- Modelled from the spec: `Request::path_segments` — the path split
into `/`-separated segments after dropping a leading slash, as matched
against the patterns for the root path and for a single id. -/
def path_segments (p : String) : List String :=
  splitSegsAux (match p.data with
    | c :: rest => if c = '/' then rest else c :: rest
    | [] => []) []

/-- Lookup in the association-list model of the server's
`HashMap<String, NodeInfo>` (first binding wins). -/
def mapGet : List (String × NodeInfo) → String → Option NodeInfo
  | [], _ => none
  | (k, v) :: rest, q => if k = q then some v else mapGet rest q

/-- Removal of a key from the association-list map (`HashMap::remove`). -/
def eraseKey : List (String × NodeInfo) → String → List (String × NodeInfo)
  | [], _ => []
  | (k, v) :: rest, q => if k = q then eraseKey rest q else (k, v) :: eraseKey rest q

/-- Insertion into the association-list map (`HashMap::insert`):
replaces any previous binding of the key. -/
def mapInsert (m : List (String × NodeInfo)) (k : String) (v : NodeInfo) :
    List (String × NodeInfo) :=
  (k, v) :: eraseKey m k

/-- The stored values, in binding order (`HashMap::values`). -/
def values (m : List (String × NodeInfo)) : List NodeInfo :=
  m.map Prod.snd

/-- The server state: `pub struct Server(HashMap<String, NodeInfo>)`,
with the hash map modelled as an association list. -/
structure Server where
  nodes : List (String × NodeInfo)
deriving DecidableEq, Repr

/-- `Server::new()` — the empty map (`Server::default()`). -/
def Server.new : Server := { nodes := [] }

/-- Shallow embedding of `Server::on_request`.  The `&mut self` receiver
becomes explicit state passing: the result pairs the server state after
the call with the response (or error).  `freshId` stands for the value
`rand_id()` generates in the `POST` arm.  Response encoding (`to_cbor`)
is total because its error type is `Infallible`. -/
def on_request (freshId : String) (s : Server) (data : Cbor) :
    Server × Except NodesError Response :=
  match data.request with
  | .error e => (s, .error (.decode e))
  | .ok req =>
    match req.method with
    | some .get =>
      match path_segments req.path with
      | [id] =>
        if id = "" then
          -- Get all nodes:
          (s, .ok { re := req.id, status := .ok, body := .nodes (values s.nodes) })
        else
          -- Get a single node:
          match mapGet s.nodes id with
          | some n => (s, .ok { re := req.id, status := .ok, body := .node n })
          | none => (s, .ok { re := req.id, status := .notFound, body := .none })
      | _ =>
        (s, .ok { re := req.id, status := .badRequest,
                  body := .err { path := req.path, method := some .post,
                                 message := some "unknown path" } })
    | some .post =>
      if req.hasBody then
        match data.createNode with
        | .error e => (s, .error (.decode e))
        | .ok cn =>
          let ni : NodeInfo := { id := freshId, name := cn.name }
          ({ nodes := mapInsert s.nodes ni.id ni },
           .ok { re := req.id, status := .ok, body := .node ni })
      else
        (s, .ok { re := req.id, status := .badRequest,
                  body := .err { path := req.path, method := some .post,
                                 message := some "missing request body" } })
    | some .delete =>
      match path_segments req.path with
      | [id] =>
        if (mapGet s.nodes id).isSome then
          ({ nodes := eraseKey s.nodes id },
           .ok { re := req.id, status := .ok, body := .none })
        else
          (s, .ok { re := req.id, status := .notFound, body := .none })
      | _ =>
        (s, .ok { re := req.id, status := .badRequest,
                  body := .err { path := req.path, method := some .post,
                                 message := some "unknown path" } })
    | some m =>
      (s, .ok { re := req.id, status := .methodNotAllowed,
                body := .err { path := req.path, method := some m, message := none } })
    | none =>
      (s, .ok { re := req.id, status := .notImplemented,
                body := .err { path := req.path, method := none,
                               message := some "unknown method" } })

/-- Ids produced by `rand_id()` are 16 alphanumeric characters, hence
nonempty and free of `'/'`; this is the part those proofs need. -/
def ValidId (i : String) : Prop :=
  i.data ≠ [] ∧ '/' ∉ i.data

instance (i : String) : Decidable (ValidId i) := by
  unfold ValidId; infer_instance

/-- A `GET` request stream for the given path. -/
def getCbor (rid : Nat) (p : String) (rest : Except DecodeErr CreateNode) : Cbor :=
  { request := .ok { id := rid, path := p, method := some .get, hasBody := false },
    createNode := rest }

/-- A `DELETE` request stream for the given path. -/
def deleteCbor (rid : Nat) (p : String) (rest : Except DecodeErr CreateNode) : Cbor :=
  { request := .ok { id := rid, path := p, method := some .delete, hasBody := false },
    createNode := rest }

/-- The statuses the server is specified to return. -/
def allowedStatuses : List Status :=
  [.ok, .notFound, .badRequest, .methodNotAllowed, .notImplemented]

/-- Every key of the server's map is the id of the `NodeInfo` it is
bound to. -/
def WellFormed (s : Server) : Prop :=
  ∀ p ∈ s.nodes, p.2.id = p.1

/-- Runs a sequence of requests against the server, threading the state;
each request comes with the id `rand_id()` generates for it. -/
def runRequests (l : List (String × Cbor)) (s : Server) : Server :=
  l.foldl (fun s p => (on_request p.1 s p.2).1) s

/-- A sample `POST /` stream whose body decodes to a `CreateNode`. -/
def samplePost (n : String) : Cbor :=
  { request := .ok { id := 7, path := "/", method := some .post, hasBody := true },
    createNode := .ok { name := n } }

/-- A sample `POST /` stream without a body. -/
def samplePostNoBody : Cbor :=
  { request := .ok { id := 7, path := "/", method := some .post, hasBody := false },
    createNode := .error .err }

/-- A sample request whose decoded method is `PUT`. -/
def samplePut : Cbor :=
  { request := .ok { id := 8, path := "/", method := some .put, hasBody := false },
    createNode := .error .err }

/-- A sample request whose wire method is unrecognized. -/
def sampleNoMethod : Cbor :=
  { request := .ok { id := 9, path := "/", method := none, hasBody := false },
    createNode := .error .err }

/-- A sample stream whose request header fails to decode. -/
def sampleBadCbor : Cbor :=
  { request := .error .err, createNode := .error .err }

end Nodes

namespace Portal

/-- The transport error variants this component uses:
`TransportError::Protocol` for an unexpected message, and the
resolution failure `TcpRouterHandle::resolve_peer` can return. -/
inductive TransportError
  | protocol
  | invalidAddress
deriving DecidableEq, Repr

/-- Modelled from the spec: the portal control protocol — a single
control variant `Ping` initiating a session, plus the data and
`Disconnect` messages carried over an established session. -/
inductive PortalMessage
  | ping
  | payload (data : List Nat)
  | disconnect
deriving DecidableEq, Repr

/-- A received routed message: its body and the return route back to
the sender (`msg.return_route()`), a route being a list of addresses. -/
structure RoutedMessage where
  body : PortalMessage
  return_route : List String

/-- An access-control predicate (`Arc<dyn AccessControl>`), modelled as
a pure predicate on the caller's route metadata, per the spec. -/
def AccessControl := List String → Bool

/-- The listener state `TcpOutletListenWorker`: the configured peer
endpoint string and the access-control handle. -/
structure TcpOutletListenWorker where
  peer : String
  access_control : AccessControl

/-- `TcpOutletListenWorker::new`. -/
def TcpOutletListenWorker.new (peer : String) (ac : AccessControl) :
    TcpOutletListenWorker :=
  { peer := peer, access_control := ac }

/-- Modelled from the spec: `TcpRouterHandle::resolve_peer` resolves
the configured peer endpoint string (`host:port`) to a socket address,
failing on a malformed endpoint. -/
def resolve_peer (peer : String) : Except TransportError String :=
  if ':' ∈ peer.data then .ok peer else .error .invalidAddress

/-- The record of a `TcpPortalWorker::start_new_outlet` call: the
arguments the listener passes when it spawns the per-session outlet
worker — the resolved peer address, the return route of the `Ping`
sender, and the access-control handle handed to the new worker. -/
structure OutletSpawn where
  peer_addr : String
  return_route : List String
  access_control : AccessControl

/-- Shallow embedding of `TcpOutletListenWorker::handle_message`.  The
spawn of the per-session outlet worker is represented by the returned
`OutletSpawn` record; the listener state after the call is returned
alongside it (the handler never writes its fields). -/
def handle_message (s : TcpOutletListenWorker) (msg : RoutedMessage) :
    Except TransportError (OutletSpawn × TcpOutletListenWorker) :=
  let return_route := msg.return_route
  match msg.body with
  | .ping =>
    match resolve_peer s.peer with
    | .error e => .error e
    | .ok peer_addr =>
      .ok ({ peer_addr := peer_addr, return_route := return_route,
             access_control := s.access_control }, s)
  | _ => .error .protocol

/-- An access-control predicate denying every caller. -/
def denyAll : AccessControl := fun _ => false

end Portal

namespace Nodes

/-- Splitting a slash-free character list yields a single segment. -/
theorem splitSegsAux_no_slash :
    ∀ (cs acc : List Char), '/' ∉ cs →
      splitSegsAux cs acc = [String.mk (acc.reverse ++ cs)] := by
  intro cs
  induction cs with
  | nil => intro acc _; simp [splitSegsAux]
  | cons c rest ih =>
    intro acc h
    have hc : c ≠ '/' := fun hc => h (hc ▸ List.mem_cons_self c rest)
    have hrest : '/' ∉ rest := fun hr => h (List.mem_cons_of_mem c hr)
    simp only [splitSegsAux, if_neg (fun hcc => hc hcc)]
    rw [ih (c :: acc) hrest]
    simp

/-- The path `/i` for a slash-free id `i` splits into the single
segment `i`. -/
theorem path_segments_slash (i : String) (h : '/' ∉ i.data) :
    path_segments ("/" ++ i) = [i] := by
  have hdata : ("/" ++ i).data = '/' :: i.data := by
    simp [String.data_append]
  unfold path_segments
  rw [hdata]
  show splitSegsAux (if '/' = '/' then i.data else '/' :: i.data) [] = [i]
  rw [if_pos rfl]
  rw [splitSegsAux_no_slash i.data [] h]
  simp

/-- Looking up the freshly inserted key returns the inserted value. -/
theorem mapGet_mapInsert (m : List (String × NodeInfo)) (k : String) (v : NodeInfo) :
    mapGet (mapInsert m k v) k = some v := by
  simp [mapInsert, mapGet]

/-- Looking up an erased key finds nothing. -/
theorem mapGet_eraseKey (m : List (String × NodeInfo)) (k : String) :
    mapGet (eraseKey m k) k = none := by
  induction m with
  | nil => simp [eraseKey, mapGet]
  | cons p rest ih =>
    obtain ⟨k', v'⟩ := p
    by_cases hk : k' = k
    · simp [eraseKey, hk, ih]
    · simp [eraseKey, hk, mapGet, ih]

/-- Erasure only removes bindings. -/
theorem mem_eraseKey (m : List (String × NodeInfo)) (k : String)
    (p : String × NodeInfo) (hp : p ∈ eraseKey m k) : p ∈ m := by
  induction m with
  | nil => simp [eraseKey] at hp
  | cons q rest ih =>
    obtain ⟨k', v'⟩ := q
    by_cases hk : k' = k
    · simp only [eraseKey, if_pos hk] at hp
      exact List.mem_cons_of_mem _ (ih hp)
    · simp only [eraseKey, if_neg hk] at hp
      rcases List.mem_cons.mp hp with h | h
      · exact h ▸ List.mem_cons_self _ _
      · exact List.mem_cons_of_mem _ (ih h)

/-- C7: for every server state, `Server::on_request` on a `GET /`
request returns status `Ok` with a body listing exactly the `NodeInfo`
values currently stored in the server's node map, and leaves the state
unchanged. -/
theorem get_root_lists_nodes (fid : String) (s : Server) (d : Cbor) (req : Request)
    (hreq : d.request = .ok req)
    (hm : req.method = some Method.get)
    (hp : req.path = "/") :
    on_request fid s d
      = (s, .ok { re := req.id, status := .ok, body := .nodes (values s.nodes) }) := by
  have hseg : path_segments "/" = [""] := rfl
  simp only [on_request, hreq, hm, hp, hseg, if_true]

/-- Witness for C7: listing on a one-node server returns that node. -/
theorem get_root_lists_nodes_witness :
    on_request "f" { nodes := [("a", { id := "a", name := "n1" })] }
      (getCbor 5 "/" (.error .err))
      = ({ nodes := [("a", { id := "a", name := "n1" })] },
         .ok { re := 5, status := .ok,
               body := .nodes [{ id := "a", name := "n1" }] }) :=
  get_root_lists_nodes "f" { nodes := [("a", { id := "a", name := "n1" })] }
    (getCbor 5 "/" (.error .err)) _ rfl rfl rfl

/-- C10: a request whose decoded method is `GET` never changes the
server's node map, whatever its path. -/
theorem get_request_preserves_nodes (fid : String) (s s' : Server) (d : Cbor)
    (req : Request) (r : Except NodesError Response)
    (hreq : d.request = .ok req)
    (hm : req.method = some Method.get)
    (h : on_request fid s d = (s', r)) :
    s' = s := by
  simp only [on_request, hreq, hm] at h
  repeat' split at h
  all_goals (injection h with h1 h2; exact h1.symm)

/-- Witness for C10: a `GET` for a missing id leaves the empty server
empty. -/
theorem get_request_preserves_nodes_witness :
    (on_request "f" Server.new (getCbor 3 "/zzz" (.error .err))).1 = Server.new :=
  get_request_preserves_nodes "f" Server.new _ (getCbor 3 "/zzz" (.error .err)) _
    (.ok { re := 3, status := .notFound, body := .none }) rfl rfl rfl

/-- C9: whenever `Server::on_request` returns an error (a CBOR decode
failure — encoding into a byte vector is infallible), the node map is
exactly what it was before the call. -/
theorem error_preserves_nodes (fid : String) (s s' : Server) (d : Cbor)
    (e : NodesError)
    (h : on_request fid s d = (s', .error e)) :
    s' = s := by
  unfold on_request at h
  repeat' split at h
  all_goals (injection h with h1 h2)
  all_goals (first | exact h1.symm | injection h2)

/-- Witness for C9: a stream whose request header fails to decode
leaves the server unchanged. -/
theorem error_preserves_nodes_witness :
    (on_request "f" Server.new sampleBadCbor).1 = Server.new :=
  error_preserves_nodes "f" Server.new _ sampleBadCbor (.decode .err) rfl

/-- C6: every successful response of `Server::on_request` carries one
of the statuses `Ok`, `NotFound`, `BadRequest`, `MethodNotAllowed`,
`NotImplemented`; a `POST` without a body yields `BadRequest`; a
decoded method other than `GET`, `POST`, `DELETE` yields
`MethodNotAllowed`; an unrecognized method yields `NotImplemented`. -/
theorem response_status_taxonomy (fid : String) (s : Server) (d : Cbor)
    (req : Request) :
    (∀ s' resp, on_request fid s d = (s', .ok resp) →
        resp.status ∈ allowedStatuses)
    ∧ (d.request = .ok req → req.method = some Method.post →
        req.hasBody = false →
        on_request fid s d
          = (s, .ok { re := req.id, status := .badRequest,
                      body := .err { path := req.path, method := some .post,
                                     message := some "missing request body" } }))
    ∧ (d.request = .ok req →
        (req.method = some Method.put ∨ req.method = some Method.patch) →
        on_request fid s d
          = (s, .ok { re := req.id, status := .methodNotAllowed,
                      body := .err { path := req.path, method := req.method,
                                     message := none } }))
    ∧ (d.request = .ok req → req.method = none →
        on_request fid s d
          = (s, .ok { re := req.id, status := .notImplemented,
                      body := .err { path := req.path, method := none,
                                     message := some "unknown method" } })) := by
  refine ⟨?_, ?_, ?_, ?_⟩
  · intro s' resp h
    unfold on_request at h
    repeat' split at h
    all_goals (injection h with h1 h2)
    all_goals (first
      | (injection h2 with h3; subst h3; simp [allowedStatuses])
      | injection h2)
  · intro hreq hm hb
    simp [on_request, hreq, hm, hb]
  · intro hreq hm
    rcases hm with hm | hm <;> simp [on_request, hreq, hm]
  · intro hreq hm
    simp [on_request, hreq, hm]

/-- Witness for C6: the `POST`-without-body, `PUT` and missing-method
sample requests are answered with the specified statuses, all within
the allowed set. -/
theorem response_status_taxonomy_witness :
    (({ re := 7, status := .badRequest,
        body := .err { path := "/", method := some .post,
                       message := some "missing request body" } } : Response).status
      ∈ allowedStatuses)
    ∧ on_request "x" Server.new samplePostNoBody
        = (Server.new,
           .ok { re := 7, status := .badRequest,
                 body := .err { path := "/", method := some .post,
                                message := some "missing request body" } })
    ∧ on_request "x" Server.new samplePut
        = (Server.new,
           .ok { re := 8, status := .methodNotAllowed,
                 body := .err { path := "/", method := some .put,
                                message := none } })
    ∧ on_request "x" Server.new sampleNoMethod
        = (Server.new,
           .ok { re := 9, status := .notImplemented,
                 body := .err { path := "/", method := none,
                                message := some "unknown method" } }) := by
  have h1 := response_status_taxonomy "x" Server.new samplePostNoBody
    { id := 7, path := "/", method := some .post, hasBody := false }
  have h2 := response_status_taxonomy "x" Server.new samplePut
    { id := 8, path := "/", method := some .put, hasBody := false }
  have h3 := response_status_taxonomy "x" Server.new sampleNoMethod
    { id := 9, path := "/", method := none, hasBody := false }
  refine ⟨?_, h1.2.1 rfl rfl rfl, ?_, h3.2.2.2 rfl rfl⟩
  · exact h1.1 Server.new _ (h1.2.1 rfl rfl rfl)
  · exact h2.2.2.1 rfl (Or.inl rfl)

/-- C1: a `POST /` request whose body decodes to a `CreateNode` with
name `n` is answered `Ok` with a `NodeInfo` carrying the generated id
and name `n`, and on the resulting state a `GET /i` for that id is
answered `Ok` with a `NodeInfo` whose name is `n`.  The generated id is
16 alphanumeric characters, hence `ValidId`. -/
theorem create_then_get_roundtrip
    (fid fid2 : String) (s : Server) (d : Cbor) (req : Request)
    (cn : CreateNode) (gid : Nat) (rest : Except DecodeErr CreateNode)
    (hreq : d.request = .ok req)
    (hm : req.method = some Method.post)
    (_hp : req.path = "/")
    (hb : req.hasBody = true)
    (hcn : d.createNode = .ok cn)
    (hfid : ValidId fid) :
    on_request fid s d
      = ({ nodes := mapInsert s.nodes fid { id := fid, name := cn.name } },
         .ok { re := req.id, status := .ok,
               body := .node { id := fid, name := cn.name } })
    ∧ on_request fid2
        { nodes := mapInsert s.nodes fid { id := fid, name := cn.name } }
        (getCbor gid ("/" ++ fid) rest)
      = ({ nodes := mapInsert s.nodes fid { id := fid, name := cn.name } },
         .ok { re := gid, status := .ok,
               body := .node { id := fid, name := cn.name } }) := by
  obtain ⟨hne, hns⟩ := hfid
  have hfid0 : fid ≠ "" := fun h => hne (by rw [h])
  constructor
  · simp [on_request, hreq, hm, hb, hcn]
  · have hseg := path_segments_slash fid hns
    simp only [on_request, getCbor, hseg, if_neg hfid0,
      mapGet_mapInsert]

/-- Witness for C1: creating `n1` under the generated id `abc123` and
reading it back. -/
theorem create_then_get_roundtrip_witness :
    on_request "abc123" Server.new (samplePost "n1")
      = ({ nodes := [("abc123", { id := "abc123", name := "n1" })] },
         .ok { re := 7, status := .ok,
               body := .node { id := "abc123", name := "n1" } })
    ∧ on_request "z"
        { nodes := [("abc123", { id := "abc123", name := "n1" })] }
        (getCbor 3 "/abc123" (.error .err))
      = ({ nodes := [("abc123", { id := "abc123", name := "n1" })] },
         .ok { re := 3, status := .ok,
               body := .node { id := "abc123", name := "n1" } }) :=
  create_then_get_roundtrip "abc123" "z" Server.new (samplePost "n1") _
    { name := "n1" } 3 (.error .err) rfl rfl rfl rfl rfl (by decide)

/-- C5: for a (nonempty, slash-free) node id `i`, a `DELETE /i` request
is answered `Ok` when `i` is stored and `NotFound` when it is not, and
a subsequent `GET /i` on the resulting state is answered `NotFound`. -/
theorem delete_then_get_not_found
    (f1 f2 : String) (s : Server) (i : String)
    (did gid : Nat) (r1 r2 : Except DecodeErr CreateNode)
    (hi : ValidId i) :
    (on_request f1 s (deleteCbor did ("/" ++ i) r1)).2
      = .ok { re := did,
              status := if (mapGet s.nodes i).isSome then .ok else .notFound,
              body := .none }
    ∧ (on_request f2 (on_request f1 s (deleteCbor did ("/" ++ i) r1)).1
        (getCbor gid ("/" ++ i) r2)).2
      = .ok { re := gid, status := .notFound, body := .none } := by
  obtain ⟨hne, hns⟩ := hi
  have hi0 : i ≠ "" := fun h => hne (by rw [h])
  have hseg := path_segments_slash i hns
  by_cases hst : (mapGet s.nodes i).isSome
  · constructor
    · simp [on_request, deleteCbor, hseg, hst]
    · simp [on_request, deleteCbor, getCbor, hseg, hst, if_neg hi0,
        mapGet_eraseKey]
  · have hnone : mapGet s.nodes i = none := by
      cases h : mapGet s.nodes i with
      | none => rfl
      | some v => rw [h] at hst; simp at hst
    constructor
    · simp [on_request, deleteCbor, hseg, hst]
    · simp [on_request, deleteCbor, getCbor, hseg, hst, if_neg hi0, hnone]

/-- Witness for C5: deleting a stored id `a` answers `Ok` and the
following `GET /a` answers `NotFound`; the same delete on the empty
server answers `NotFound`. -/
theorem delete_then_get_not_found_witness :
    ((on_request "f" { nodes := [("a", { id := "a", name := "n1" })] }
        (deleteCbor 4 "/a" (.error .err))).2
      = .ok { re := 4, status := .ok, body := .none })
    ∧ ((on_request "g"
          (on_request "f" { nodes := [("a", { id := "a", name := "n1" })] }
            (deleteCbor 4 "/a" (.error .err))).1
          (getCbor 5 "/a" (.error .err))).2
      = .ok { re := 5, status := .notFound, body := .none }) := by
  have h := delete_then_get_not_found "f" "g"
    { nodes := [("a", { id := "a", name := "n1" })] } "a" 4 5
    (.error .err) (.error .err) (by decide)
  exact ⟨h.1, h.2⟩

/-- One `on_request` step keeps every key bound to a `NodeInfo` whose
id is that key: the only insertion uses `ni.id` itself as the key. -/
theorem wellFormed_step (fid : String) (s : Server) (d : Cbor)
    (h : WellFormed s) : WellFormed (on_request fid s d).1 := by
  unfold on_request
  repeat' split
  all_goals (intro p hp)
  all_goals (first
    | exact h p hp
    | skip)
  · -- POST: the inserted binding is (fid, NodeInfo fid name)
    simp only [mapInsert] at hp
    rcases List.mem_cons.mp hp with hh | hh
    · rw [hh]
    · exact h p (mem_eraseKey _ _ p hh)
  · -- DELETE: erasure only removes bindings
    exact h p (mem_eraseKey _ _ p hp)

/-- C8: starting from `Server::new()`, after any sequence of
`on_request` calls every key of the node map is the id of the
`NodeInfo` it is bound to. -/
theorem run_requests_wellFormed (l : List (String × Cbor)) :
    WellFormed (runRequests l Server.new) := by
  have hgen : ∀ (l : List (String × Cbor)) (s : Server),
      WellFormed s → WellFormed (runRequests l s) := by
    intro l
    induction l with
    | nil => intro s hs; exact hs
    | cons p rest ih =>
      intro s hs
      exact ih _ (wellFormed_step p.1 s p.2 hs)
  exact hgen l Server.new (fun p hp => absurd hp (List.not_mem_nil p))

/-- Witness for C8: the invariant after a create, a delete and a bad
request. -/
theorem run_requests_wellFormed_witness :
    WellFormed (runRequests
      [("abc", samplePost "n1"), ("d", deleteCbor 4 "/zzz" (.error .err)),
       ("e", sampleBadCbor)] Server.new) :=
  run_requests_wellFormed
    [("abc", samplePost "n1"), ("d", deleteCbor 4 "/zzz" (.error .err)),
     ("e", sampleBadCbor)]

end Nodes

namespace Portal

/-- Sample listener used for witnesses: a well-formed peer endpoint and
a predicate denying every caller. -/
def sampleListener : TcpOutletListenWorker :=
  TcpOutletListenWorker.new "127.0.0.1:4000" denyAll

/-- C3: a received message whose body is not `Ping` makes
`handle_message` return `Err(TransportError::Protocol)`; no outlet
worker is spawned (the result carries no spawn record). -/
theorem non_ping_is_protocol_error (s : TcpOutletListenWorker)
    (msg : RoutedMessage) (h : msg.body ≠ PortalMessage.ping) :
    handle_message s msg = .error .protocol := by
  unfold handle_message
  cases hb : msg.body with
  | ping => exact absurd hb h
  | payload d => rfl
  | disconnect => rfl

/-- Witness for C3: a data message to the listener is a protocol
error. -/
theorem non_ping_is_protocol_error_witness :
    handle_message sampleListener
      { body := .payload [104, 105], return_route := ["caller"] }
      = .error .protocol :=
  non_ping_is_protocol_error sampleListener
    { body := .payload [104, 105], return_route := ["caller"] } (by decide)

/-- C4: every `Ping` whose configured peer endpoint resolves makes the
listener spawn a per-session outlet worker wired to the return route of
that `Ping` (and carrying the listener's access-control handle), and
leaves the listener state unchanged; a second `Ping` therefore spawns
another independent session. -/
theorem ping_spawns_fresh_session (s : TcpOutletListenWorker)
    (msg msg' : RoutedMessage) (a : String)
    (hb : msg.body = PortalMessage.ping)
    (hb' : msg'.body = PortalMessage.ping)
    (hres : resolve_peer s.peer = .ok a) :
    handle_message s msg
      = .ok ({ peer_addr := a, return_route := msg.return_route,
               access_control := s.access_control }, s)
    ∧ handle_message s msg'
      = .ok ({ peer_addr := a, return_route := msg'.return_route,
               access_control := s.access_control }, s) := by
  constructor
  · unfold handle_message
    rw [hb, hres]
  · unfold handle_message
    rw [hb', hres]

/-- Witness for C4: two pings with distinct return routes each spawn a
session wired to their own return route, leaving the listener as it
was. -/
theorem ping_spawns_fresh_session_witness :
    handle_message sampleListener { body := .ping, return_route := ["c1"] }
      = .ok ({ peer_addr := "127.0.0.1:4000", return_route := ["c1"],
               access_control := sampleListener.access_control }, sampleListener)
    ∧ handle_message sampleListener { body := .ping, return_route := ["c2"] }
      = .ok ({ peer_addr := "127.0.0.1:4000", return_route := ["c2"],
               access_control := sampleListener.access_control }, sampleListener) :=
  ping_spawns_fresh_session sampleListener
    { body := .ping, return_route := ["c1"] }
    { body := .ping, return_route := ["c2"] }
    "127.0.0.1:4000" rfl rfl rfl

/-- Counterexample for C2: the listener spawns an outlet worker for a
`Ping` even though the caller fails the access-control predicate — the
handler performs no access-control check before spawning. -/
theorem ping_denied_caller_still_spawns :
    (handle_message sampleListener
        { body := .ping, return_route := ["caller"] }).isOk = true
    ∧ denyAll ["caller"] = false :=
  ⟨rfl, rfl⟩

/-- C2 (amended): on a `Ping`, the listener does not access-control
check the caller before spawning; even when the caller fails the
predicate, it spawns the per-session outlet worker (once the peer
endpoint resolves), merely passing the predicate on to the spawned
worker. -/
theorem ping_spawn_ignores_caller_access_control
    (s : TcpOutletListenWorker) (msg : RoutedMessage) (a : String)
    (hb : msg.body = PortalMessage.ping)
    (hres : resolve_peer s.peer = .ok a)
    (_hdenied : s.access_control msg.return_route = false) :
    handle_message s msg
      = .ok ({ peer_addr := a, return_route := msg.return_route,
               access_control := s.access_control }, s) := by
  unfold handle_message
  rw [hb, hres]

/-- Witness for C2 (amended): the deny-all listener still spawns for a
`Ping`. -/
theorem ping_spawn_ignores_caller_access_control_witness :
    handle_message sampleListener { body := .ping, return_route := ["caller"] }
      = .ok ({ peer_addr := "127.0.0.1:4000", return_route := ["caller"],
               access_control := sampleListener.access_control }, sampleListener) :=
  ping_spawn_ignores_caller_access_control sampleListener
    { body := .ping, return_route := ["caller"] } "127.0.0.1:4000" rfl rfl rfl

end Portal
